import Mathlib

/-!
Verification development for the resolution engine of the `simple_parsing`
repository (EasyArgs).  The definitions below are shallow embeddings of the
Python source under `src/`:

* `src/simple_parsing/parsing.py`            (ArgumentParser)
* `src/simple_parsing/wrappers/dataclass_wrapper.py` (DataclassWrapper)
* `src/simple_parsing/helpers/subgroups.py`  (the `subgroups` field helper)
* `src/test/test_nested_subgroups.py`        (the prototype subgroup
  round-loop `ParserForSubgroups.parse_known_args`)

Python run-time values (ints, strings, bools, `None`, dataclass instances)
are modelled by the inductive type `Val`; fallible Python code that raises
is modelled with `Except`.
-/

/-- Model of a Python run-time value: ints, strings, bools, `None`, and
dataclass instances (`vObj className attrs`). -/
inductive Val where
  | vInt (n : Int)
  | vStr (s : String)
  | vBool (b : Bool)
  | vNone
  | vObj (className : String) (attrs : List (String × Val))

mutual
/-- Structural (Python `==`) equality test on modelled values. -/
def Val.beq : Val → Val → Bool
  | .vInt a, .vInt b => a == b
  | .vStr a, .vStr b => a == b
  | .vBool a, .vBool b => a == b
  | .vNone, .vNone => true
  | .vObj c1 a1, .vObj c2 a2 => c1 == c2 && Val.attrsBeq a1 a2
  | _, _ => false

/-- Structural equality test on attribute maps of modelled values. -/
def Val.attrsBeq : List (String × Val) → List (String × Val) → Bool
  | [], [] => true
  | (k1, v1) :: r1, (k2, v2) :: r2 =>
      k1 == k2 && Val.beq v1 v2 && Val.attrsBeq r1 r2
  | _, _ => false
end

instance : BEq Val := ⟨Val.beq⟩

/-- Lookup in a Python dict modelled as an association list. -/
def bagLookup (cargs : List (String × Val)) (k : String) : Option Val :=
  (cargs.find? (fun p => p.1 == k)).map (fun p => p.2)

/-- Invoking the dataclass constructor with a keyword map
(`constructor(**constructor_args)` in `parsing.py`, line 531/533). -/
def mkInstance (className : String) (cargs : List (String × Val)) : Val :=
  Val.vObj className cargs

/-- One wrapped leaf field of a dataclass: its name and its default value
(`FieldWrapper.name` / `FieldWrapper.default`; `Val.vNone` models `None`). -/
structure FieldW where
  name : String
  default : Val

/-- Shallow embedding of `DataclassWrapper`
(`src/simple_parsing/wrappers/dataclass_wrapper.py`): the dataclass name,
the owned destinations, the accumulated defaults, the wrapped leaf fields,
the `optional` flag, the wrapper default (`Val.vNone` models `None`), and
the child wrappers for nested dataclasses. -/
inductive DCW where
  | mk (className : String) (destinations : List String) (defaults : List Val)
      (fields : List FieldW) (optional : Bool) (wDefault : Val)
      (children : List DCW)

def DCW.className : DCW → String
  | .mk c _ _ _ _ _ _ => c

def DCW.destinations : DCW → List String
  | .mk _ d _ _ _ _ _ => d

def DCW.defaults : DCW → List Val
  | .mk _ _ df _ _ _ _ => df

def DCW.fields : DCW → List FieldW
  | .mk _ _ _ f _ _ _ => f

def DCW.optional : DCW → Bool
  | .mk _ _ _ _ o _ _ => o

def DCW.wDefault : DCW → Val
  | .mk _ _ _ _ _ w _ => w

def DCW.children : DCW → List DCW
  | .mk _ _ _ _ _ _ c => c

/-- `DataclassWrapper.merge`, lines 290-293: walk the destinations of
`other` and append each one that is not already present. -/
def mergeDests (self other : List String) : List String :=
  other.foldl (fun acc d => if d ∈ acc then acc else acc ++ [d]) self

mutual
/-- `DataclassWrapper.merge` (`dataclass_wrapper.py`, lines 280-300):
absorb the destinations of `other` (deduplicated, lines 290-292), extend
the defaults (line 294), reset every wrapped field default to `None`
(lines 296-297), and merge the children pairwise (`zip`, lines 299-300). -/
def DCW.merge : DCW → DCW → DCW
  | .mk c1 d1 df1 f1 o1 w1 ch1, .mk _ d2 df2 _ _ _ ch2 =>
      .mk c1 (mergeDests d1 d2) (df1 ++ df2)
        (f1.map (fun f => { f with default := Val.vNone }))
        o1 w1 (DCW.mergeChildren ch1 ch2)

/-- `zip(self._children, other._children)` with `child.merge(other_child)`:
stops at the shorter list, like Python `zip`. -/
def DCW.mergeChildren : List DCW → List DCW → List DCW
  | [], _ => []
  | _ :: _, [] => []
  | x :: xs, y :: ys => DCW.merge x y :: DCW.mergeChildren xs ys
end

/-- The all-defaults test of `ArgumentParser._set_instances_in_namespace`
(`parsing.py`, lines 516-525): every wrapped field value in the
constructor-argument map equals that field wrapper default. -/
def allFieldsDefault (w : DCW) (cargs : List (String × Val)) : Bool :=
  w.fields.all (fun f => bagLookup cargs f.name == some f.default)

/-- The per-destination instance decision of
`ArgumentParser._set_instances_in_namespace` (`parsing.py`, lines
508-533): when the wrapper is optional AND its default is `None`, an
all-defaults constructor-argument map produces the instance `None`;
in every other case the dataclass constructor is invoked. -/
def setInstanceForDest (w : DCW) (cargs : List (String × Val)) : Val :=
  if w.optional && (w.wDefault == Val.vNone) then
    if allFieldsDefault w cargs then Val.vNone
    else mkInstance w.className cargs
  else mkInstance w.className cargs

/-- Modelled from the spec: the parsed-value distribution for a merged
argument, performed by `FieldWrapper.__call__` in
`wrappers/field_wrapper.py`, which is absent from `src/`.  The spec says
the single parsed value of a merged argument is broadcast (cloned) to
every merged destination; `src/test/nesting/test_nesting_merge.py` pins
the many-values case: when exactly one value per merged destination is
supplied, each destination receives its own value in order. -/
def distributeMergedValues (dests : List String) (values : List Val) :
    List (String × Val) :=
  if values.length == dests.length then dests.zip values
  else dests.map (fun d => (d, values.headD Val.vNone))

/-- A registered top-level wrapper, summarised by its destination and its
dataclass (`wrapper.dest`, `wrapper.dataclass`). -/
structure PWrapper where
  dest : String
  dataclassName : String
  deriving DecidableEq

/-- A registration-time configuration error of
`ArgumentParser.add_arguments` (`argparse.ArgumentError`, carrying the
offending destination and dataclass in its message). -/
inductive RegErr where
  | duplicateDest (dest : String) (dataclassName : String)
  deriving DecidableEq

/-- The duplicate-registration check of `ArgumentParser.add_arguments`
(`parsing.py`, lines 214-236): walk the existing wrappers and raise an
`ArgumentError` when one has the same `dest` AND the same dataclass;
otherwise append a new wrapper. -/
def addArguments (wrappers : List PWrapper) (dataclassName dest : String) :
    Except RegErr (List PWrapper) :=
  if wrappers.any (fun w => w.dest == dest && w.dataclassName == dataclassName) then
    .error (.duplicateDest dest dataclassName)
  else .ok (wrappers ++ [⟨dest, dataclassName⟩])

/-- A node as seen by the postprocessor sort: its nesting level and its
destination (used only to tell nodes apart). -/
structure WrapperN where
  nestingLevel : Nat
  dest : String
  deriving DecidableEq

/-- Insert a node into an already descending-sorted list, after every node
of strictly greater level and before the first node of smaller-or-equal
level, so that among equal levels an earlier-registered node stays first. -/
def insertDesc (x : WrapperN) : List WrapperN → List WrapperN
  | [] => [x]
  | y :: ys =>
      if x.nestingLevel < y.nestingLevel then y :: insertDesc x ys
      else x :: y :: ys

/-- The postprocessor node order of
`ArgumentParser._set_instances_in_namespace` (`parsing.py`, lines
497-499): `sorted(self._wrappers, key=lambda w: w.nesting_level,
reverse=True)`.  Python `sorted` is stable, and a stable sort for a given
key and order is unique as a function of its input, so this insertion
sort computes exactly the same list. -/
def sortedByLevelDesc : List WrapperN → List WrapperN
  | [] => []
  | x :: xs => insertDesc x (sortedByLevelDesc xs)

/-- One constructor-argument-bag entry to be drained: a destination and,
for a non-root wrapper, the parent key computed by `utils.split_dest`. -/
structure ProcEntry where
  dest : String
  parentKey : Option String
  deriving DecidableEq

/-- One iteration of the drain loop of
`ArgumentParser._set_instances_in_namespace` (`parsing.py`, lines
501-570) as it acts on the key set of `self.constructor_arguments`: a
non-root wrapper writes the built instance into the parent entry
(creating the parent key, line 541, `defaultdict`), then the processed
destination is popped (line 570). -/
def drainStep (bag : Finset String) (e : ProcEntry) : Finset String :=
  (match e.parentKey with
   | some pk => insert pk bag
   | none => bag).erase e.dest

/-- The full drain pass over the sorted wrapper destinations, acting on
the key set of the constructor-argument bag. -/
def drainBag (entries : List ProcEntry) (bag : Finset String) : Finset String :=
  entries.foldl drainStep bag

/-- The destinations owned by a processing sequence. -/
def destsOf (entries : List ProcEntry) : Finset String :=
  (entries.map (fun e => e.dest)).toFinset

/-- Wellformedness of a processing order: every parent key appears as the
destination of a later entry (the parent wrapper has a smaller nesting
level, so the descending sort of lines 497-499 puts it after its child). -/
def parentsLaterOk : List ProcEntry → Bool
  | [] => true
  | e :: rest =>
      (match e.parentKey with
       | none => true
       | some pk => decide (pk ∈ rest.map (fun x => x.dest))) && parentsLaterOk rest

/-- The `default` argument of the `subgroups` helper as passed at a call
site: absent (`dataclasses.MISSING`), a bare key, or a pre-built dataclass
instance (which plain `@dataclass` classes make unhashable). -/
inductive SgDefault where
  | missing
  | key (k : String)
  | inst (className : String)
  deriving DecidableEq

/-- The exceptions that `subgroups` (`helpers/subgroups.py`) can raise at
declaration time. -/
inductive SgErr where
  | bothDefaultAndFactory
  | typeErrorUnhashableDefault
  | defaultNotAKey
  | factoryNotAValue
  | duplicateDefaultKey
  deriving DecidableEq

/-- The field produced by the `subgroups` helper: the enumerated choices,
the `default` and `default_factory` forwarded to `choice(...)`, and
`metadata["subgroup_default"]`. -/
structure SgField where
  choices : List String
  fieldDefault : SgDefault
  fieldFactory : Option String
  subgroupDefault : SgDefault
  deriving DecidableEq

/-- The `subgroups` helper (`helpers/subgroups.py`, lines 65-174), with
the alternatives given as key-to-dataclass pairs.  Checks in source
order: both `default` and `default_factory` given (line 96); `default
not in subgroups` (line 98) - evaluating this membership test on a
pre-built dataclass instance hashes the instance and raises `TypeError`
(plain dataclasses are unhashable); `default_factory` not a value of the
dict (line 114); a key `default` is replaced by its factory and recorded
as `subgroup_default` (lines 146-150); a `default_factory` is resolved to
its unique matching key (lines 152-167); with neither, the stored
`subgroup_default` is `MISSING` (lines 168-170).  The lambda check of
lines 105-112 is dropped: the model has no lambda values. -/
def subgroupsFn (alts : List (String × String)) (dflt : SgDefault)
    (dfltFactory : Option String) : Except SgErr SgField :=
  if dfltFactory.isSome && dflt != SgDefault.missing then
    .error .bothDefaultAndFactory
  else
    match dflt with
    | .inst _ => .error .typeErrorUnhashableDefault
    | .key k =>
      if !(alts.map (fun p => p.1)).contains k then .error .defaultNotAKey
      else
        .ok { choices := alts.map (fun p => p.1), fieldDefault := .missing,
              fieldFactory := alts.lookup k, subgroupDefault := .key k }
    | .missing =>
      match dfltFactory with
      | some f =>
        if !(alts.map (fun p => p.2)).contains f then .error .factoryNotAValue
        else
          let matching := (alts.filter (fun p => p.2 == f)).map (fun p => p.1)
          if 1 < matching.length then .error .duplicateDefaultKey
          else
            .ok { choices := alts.map (fun p => p.1), fieldDefault := .missing,
                  fieldFactory := some f, subgroupDefault := .key (matching.headD "") }
      | none =>
        .ok { choices := alts.map (fun p => p.1), fieldDefault := .missing,
              fieldFactory := none, subgroupDefault := .missing }

/-- A parse-time user error surfaced by the external token parser. -/
inductive ParseErr where
  | config (e : SgErr)
  | missingRequired (dest : String)
  | invalidChoice (k : String)
  | internalFault
  deriving DecidableEq

/-- Per-dataclass field defaults, used to default-construct an
alternative: class name to (field name, default value) pairs. -/
def ClassEnv : Type := List (String × List (String × Val))

/-- Default construction of a dataclass: every field takes its declared
default. -/
def mkDefaultInstance (env : ClassEnv) (className : String) : Val :=
  Val.vObj className (((env.find? (fun p => p.1 == className)).map
    (fun p => p.2)).getD [])

/-- Modelled from the spec: discriminator resolution for one subgroup
field named `thing`, performed by `choice(...)` in `helpers/fields.py`
and by the external token parser, both absent from `src/`.  The
discriminator is an enumerated-choice option over the alternative keys,
defaulting to the configured default key, or required if none; a
supplied value outside the choices is a user-facing parse error. -/
def resolveDiscriminator (m : SgField) (cmd : List (String × String)) :
    Except ParseErr String :=
  match cmd.lookup "--thing" with
  | some k => if m.choices.contains k then .ok k else .error (.invalidChoice k)
  | none =>
    match m.subgroupDefault with
    | .key k => .ok k
    | .missing => .error (.missingRequired "thing")
    | .inst _ => .error .internalFault

/-- Modelled from the spec: a one-field parsing session for a dataclass
`Bob` with a single subgroup field `thing` (scenario B of the spec).
Declaration runs the `subgroups` helper from `src/`, the discriminator is
resolved, and the chosen alternative is default-constructed. -/
def sessionParse (env : ClassEnv) (alts : List (String × String))
    (dflt : SgDefault) (dfltFactory : Option String)
    (cmd : List (String × String)) : Except ParseErr Val :=
  match subgroupsFn alts dflt dfltFactory with
  | .error e => .error (.config e)
  | .ok m =>
    match resolveDiscriminator m cmd with
    | .error e => .error e
    | .ok k =>
      match alts.lookup k with
      | none => .error (.invalidChoice k)
      | some cls => .ok (Val.vObj "Bob" [("thing", mkDefaultInstance env cls)])

/-- One occurrence of a boolean field option in the token list: the bare
assert flag (`--f`), the flag with a literal value (`--f false`), or the
negate flag (`--nof`). -/
inductive BoolTok where
  | flagBare
  | flagVal (b : Bool)
  | negFlag
  deriving DecidableEq

/-- The value that one boolean option occurrence sets. -/
def boolTokVal : BoolTok → Bool
  | .flagBare => true
  | .flagVal b => b
  | .negFlag => false

/-- Modelled from the spec: the boolean string literals accepted by the
value conversion of boolean fields (`str2bool` in `utils.py`, absent from
`src/`), as exercised by `src/test/test_bools.py`. -/
def parseBoolLit (s : String) : Option Bool :=
  if s == "true" || s == "True" || s == "1" || s == "yes" then some true
  else if s == "false" || s == "False" || s == "0" || s == "no" then some false
  else none

/-- Modelled from the spec: scanning the raw token list for the
occurrences of the assert/negate option pair of one boolean field
(`FieldWrapper` boolean handling, absent from `src/`): `--name` followed
by a boolean literal consumes that literal, a bare `--name` asserts, and
`--noname` negates. -/
def scanBoolTokens (name : String) : List String → List BoolTok
  | [] => []
  | [t] =>
    if t == "--" ++ name then [BoolTok.flagBare]
    else if t == "--no" ++ name then [BoolTok.negFlag]
    else []
  | t :: v :: rest2 =>
    if t == "--" ++ name then
      match parseBoolLit v with
      | some b => BoolTok.flagVal b :: scanBoolTokens name rest2
      | none => BoolTok.flagBare :: scanBoolTokens name (v :: rest2)
    else if t == "--no" ++ name then BoolTok.negFlag :: scanBoolTokens name (v :: rest2)
    else scanBoolTokens name (v :: rest2)

/-- Modelled from the spec: the documented last-supplied-option-wins
resolution for a boolean field - each occurrence overwrites the current
value, starting from the field default. -/
def resolveBoolOccs (dflt : Bool) (occs : List BoolTok) : Bool :=
  occs.foldl (fun _ t => boolTokVal t) dflt

/-- The resolved value of boolean field `name` with default `dflt` for a
raw token list. -/
def resolveBoolField (name : String) (dflt : Bool) (toks : List String) : Bool :=
  resolveBoolOccs dflt (scanBoolTokens name toks)

/-- One declared field of a schema, as consumed by the prototype subgroup
round loop of `src/test/test_nested_subgroups.py`: a plain field, or a
subgroup field carrying its alternatives (`field.metadata["subgroups"]`,
mapping keys to dataclass names). -/
inductive FieldD where
  | plain (name : String)
  | sub (name : String) (alts : List (String × String))
  deriving DecidableEq

/-- The schema environment: dataclass name to declared field list
(`dataclasses.fields`), allowing (mutually) self-referential subgroup
definitions exactly as Python class references do. -/
def SchemaEnv : Type := List (String × List FieldD)

/-- The mutable state of `ParserForSubgroups`: `self.dataclasses` (dest to
dataclass name, in insertion order), `self.unresolved_subgroups` (dest to
alternatives), and the option strings already registered with the
underlying plain `argparse.ArgumentParser`
(`self._option_string_actions`). -/
structure RState where
  dataclasses : List (String × String)
  unresolved : List (String × List (String × String))
  optionStrings : List String
  deriving DecidableEq

/-- The exceptions the prototype round loop can raise: the duplicate-dest
`RuntimeError` of `add_arguments` (lines 64-67), the
conflicting-option-string `ArgumentError` that plain argparse raises
inside `self.add_argument` (lines 94-100) when the option string is
already registered, and the `KeyError` of
`field.metadata["subgroups"][value]` (line 160). -/
inductive RErr where
  | conflict (dest : String)
  | conflictingOption (optionString : String)
  | keyError (dest : String) (k : String)
  deriving DecidableEq

/-- `dataclasses.fields(dataclass)` for the modelled schema environment. -/
def lookupFields (env : SchemaEnv) (c : String) : List FieldD :=
  (((env.find? (fun p => p.1 == c)).map (fun p => p.2))).getD []

/-- The subgroup fields of a declared field list, in declaration order
(`subgroup_fields = [field for field in dataclass_fields if "subgroups"
in field.metadata]`, `test_nested_subgroups.py`, line 70). -/
def subFieldsOf : List FieldD → List (String × List (String × String))
  | [] => []
  | FieldD.plain _ :: rest => subFieldsOf rest
  | FieldD.sub n alts :: rest => (n, alts) :: subFieldsOf rest

/-- The per-subgroup-field loop of `ParserForSubgroups.add_arguments`
(`test_nested_subgroups.py`, lines 74-100): record the field as
unresolved at `dest.field_name` (line 84), then register its
discriminator option `--field_name` with plain argparse (lines 89-100).
The option string is derived from the bare field name (the source notes
it is "ignoring name conflicts for now"), and argparse `add_argument`
raises a conflicting-option-string `ArgumentError` when that option
string is already registered. -/
def regSubFields (dest : String) :
    List (String × List (String × String)) → RState → Except RErr RState
  | [], st => .ok st
  | (n, alts) :: rest, st =>
    let st2 : RState :=
      { st with unresolved := st.unresolved ++ [(dest ++ "." ++ n, alts)] }
    if st2.optionStrings.contains ("--" ++ n) then
      .error (.conflictingOption ("--" ++ n))
    else
      regSubFields dest rest
        { st2 with optionStrings := st2.optionStrings ++ ["--" ++ n] }

/-- `ParserForSubgroups.add_arguments` (`test_nested_subgroups.py`, lines
61-100): raise on a destination already holding a dataclass (lines
64-67), record the dataclass (line 72), then run the subgroup-field loop
(lines 74-100), which enqueues each subgroup field as unresolved and
registers its discriminator option string - raising argparse's
conflicting-option-string error on a re-registered option string. -/
def addArgsModel (env : SchemaEnv) (st : RState) (className dest : String) :
    Except RErr RState :=
  if st.dataclasses.any (fun p => p.1 == dest) then .error (.conflict dest)
  else
    regSubFields dest (subFieldsOf (lookupFields env className))
      { st with dataclasses := st.dataclasses ++ [(dest, className)] }

/-- Resolving one subgroup destination inside a round
(`test_nested_subgroups.py`, lines 153-167): read the chosen key from the
parsed namespace, look it up in the alternatives (`KeyError` when
absent), pop the destination from the unresolved set, and call
`add_arguments` for the chosen dataclass at this destination. -/
def resolveOne (env : SchemaEnv) (choose : String → String) (st : RState)
    (item : String × List (String × String)) : Except RErr RState :=
  match item.2.lookup (choose item.1) with
  | none => .error (.keyError item.1 (choose item.1))
  | some cls =>
      addArgsModel env
        { st with unresolved := st.unresolved.filter (fun p => p.1 != item.1) }
        cls item.1

/-- One parsing round over the snapshot
`subgroups_at_this_level = self.unresolved_subgroups.copy()`
(`test_nested_subgroups.py`, lines 151-167). -/
def roundOnce (env : SchemaEnv) (choose : String → String) :
    List (String × List (String × String)) → RState → Except RErr RState
  | [], st => .ok st
  | item :: rest, st =>
    match resolveOne env choose st item with
    | .error e => .error e
    | .ok st2 => roundOnce env choose rest st2

/-- The bounded round loop of `ParserForSubgroups.parse_known_args`
(`test_nested_subgroups.py`, lines 130-175):
`for nesting_level in range(100)` with fuel counting the remaining
iterations; the loop breaks when no subgroup is unresolved, and when the
fuel runs out it simply falls out of the `for` statement and the method
carries on - returning the current state, raising nothing. -/
def roundLoop (env : SchemaEnv) (choose : String → String) :
    Nat → RState → Except RErr RState
  | 0, st => .ok st
  | n + 1, st =>
    if st.unresolved.isEmpty then .ok st
    else
      match roundOnce env choose st.unresolved st with
      | .error e => .error e
      | .ok st2 => roundLoop env choose n st2

/-- A directly self-referential subgroup definition: dataclass `Config`
owns the single subgroup field `x` whose only alternative `a` is `Config`
itself. -/
def selfEnv : SchemaEnv := [("Config", [FieldD.sub "x" [("a", "Config")]])]

/-- The (only possible) command-line choice for the self-referential
environment: every discriminator resolves to `a`. -/
def chooseA : String → String := fun _ => "a"

/-- The prototype parser state right after the user registration
`add_arguments(Config, "config")`: the dataclass recorded at `config`,
one unresolved subgroup at `config.x`, and the discriminator option
string `--x` registered with argparse. -/
def selfInit : RState :=
  { dataclasses := [("config", "Config")],
    unresolved := [("config.x", [("a", "Config")])],
    optionStrings := ["--x"] }

/-- An existing wrapper with the same destination and the same dataclass
makes the duplicate check of `add_arguments` fire. -/
theorem addArguments_any_true (wrappers : List PWrapper) (dataclassName dest : String)
    (h : (⟨dest, dataclassName⟩ : PWrapper) ∈ wrappers) :
    wrappers.any (fun w => w.dest == dest && w.dataclassName == dataclassName) = true :=
  List.any_eq_true.mpr ⟨⟨dest, dataclassName⟩, h, by simp⟩

/-- C9 counterexample: two registration calls that use the same
destination `x` but different dataclasses (`Foo` then `Bar`) do NOT make
the second call fail - `add_arguments` only raises when the dest AND the
dataclass both match, so the second registration is appended normally. -/
theorem c9_same_dest_different_dataclass_ok :
    addArguments [⟨"x", "Foo"⟩] "Bar" "x" =
      .ok [⟨"x", "Foo"⟩, ⟨"x", "Bar"⟩] := rfl

/-- C9 (amended): a second registration call with the same destination
AND the same dataclass as an existing one fails with a fatal
configuration error reporting the offending destination, before any
token is read. -/
theorem c9_duplicate_registration_fatal (wrappers : List PWrapper)
    (dataclassName dest : String)
    (h : (⟨dest, dataclassName⟩ : PWrapper) ∈ wrappers) :
    addArguments wrappers dataclassName dest =
      .error (.duplicateDest dest dataclassName) := by
  unfold addArguments
  rw [addArguments_any_true wrappers dataclassName dest h]
  rfl

/-- C9 witness: registering dataclass `Foo` at destination `x` twice is a
fatal duplicate-destination error. -/
theorem c9_duplicate_registration_fatal_witness :
    addArguments [⟨"x", "Foo"⟩] "Foo" "x" = .error (.duplicateDest "x" "Foo") :=
  c9_duplicate_registration_fatal [⟨"x", "Foo"⟩] "Foo" "x" (by simp)

/-- C10: during postprocessing, an optional node whose registered default
is not `None` always has its constructor invoked, whatever the parsed
constructor arguments are - in particular even when every value equals
the field default. -/
theorem c10_optional_nonnull_default_constructs (w : DCW)
    (cargs : List (String × Val)) (_hopt : w.optional = true)
    (hne : (w.wDefault == Val.vNone) = false) :
    setInstanceForDest w cargs = mkInstance w.className cargs := by
  unfold setInstanceForDest
  rw [hne]
  simp

/-- C10 witness: an optional wrapper with a non-`None` default and an
all-defaults argument map still gets a constructed instance. -/
def cw10 : DCW :=
  .mk "A" ["root.a"] [] [⟨"a", Val.vInt 1⟩] true (Val.vObj "A" [("a", Val.vInt 1)]) []

theorem c10_optional_nonnull_default_constructs_witness :
    allFieldsDefault cw10 [("a", Val.vInt 1)] = true ∧
    setInstanceForDest cw10 [("a", Val.vInt 1)] =
      mkInstance "A" [("a", Val.vInt 1)] :=
  ⟨rfl, c10_optional_nonnull_default_constructs cw10 [("a", Val.vInt 1)] rfl rfl⟩

/-- C3 counterexample: an optional node (default not `None`) whose parsed
values all equal the field defaults is NOT substituted by the absent
outcome - the constructor is invoked, because the absence substitution in
`_set_instances_in_namespace` is additionally gated on
`wrapper.default is None`. -/
def cw3 : DCW :=
  .mk "A" ["root.a"] [] [⟨"a", Val.vInt 1⟩] true (Val.vObj "A" [("a", Val.vInt 1)]) []

theorem c3_optional_all_default_counterexample :
    cw3.optional = true ∧
    allFieldsDefault cw3 [("a", Val.vInt 1)] = true ∧
    setInstanceForDest cw3 [("a", Val.vInt 1)] ≠ Val.vNone := by
  refine ⟨rfl, rfl, ?_⟩
  intro h
  exact Val.noConfusion h

/-- C3 (amended): for every node marked optional WHOSE REGISTERED DEFAULT
IS `None`, an all-defaults constructor-argument map produces the absent
outcome (`None`) instead of a constructor invocation, and otherwise the
constructor is invoked with the keyword map. -/
theorem c3_optional_absence_amended (w : DCW) (cargs : List (String × Val))
    (hopt : w.optional = true) (hdef : (w.wDefault == Val.vNone) = true) :
    setInstanceForDest w cargs =
      (if allFieldsDefault w cargs then Val.vNone
       else mkInstance w.className cargs) := by
  unfold setInstanceForDest
  rw [hopt, hdef]
  simp

/-- C3 witness: an optional wrapper with default `None` and an
all-defaults argument map produces `None`. -/
def cw3b : DCW := .mk "A" ["root.a"] [] [⟨"a", Val.vInt 1⟩] true Val.vNone []

theorem c3_optional_absence_amended_witness :
    setInstanceForDest cw3b [("a", Val.vInt 1)] = Val.vNone := by
  rw [c3_optional_absence_amended cw3b [("a", Val.vInt 1)] rfl rfl]
  rfl

/-- The two colliding registrations of the ALWAYS_MERGE hyper-parameter
test (`src/test/nesting/test_nesting_merge.py`): the same dataclass at
destinations `gender` and `age_group`, sharing the merged field
`num_layers`. -/
def genderW : DCW :=
  .mk "TaskHyperParameters" ["gender"] [] [⟨"num_layers", Val.vInt 1⟩] false Val.vNone []

def ageGroupW : DCW :=
  .mk "TaskHyperParameters" ["age_group"] [] [⟨"num_layers", Val.vInt 1⟩] false Val.vNone []

/-- C2 counterexample: under ALWAYS_MERGE, when one value per merged
destination is supplied (`--num_layers 5 6` in the style of
`test_hparam_use_case`), the merged destinations receive DIFFERENT
values: `gender` gets 5 and `age_group` gets 6, so the merged
destinations do not hold equal values after parsing. -/
theorem c2_merged_values_differ_counterexample :
    bagLookup (distributeMergedValues (DCW.destinations (DCW.merge genderW ageGroupW))
        [Val.vInt 5, Val.vInt 6]) "gender" = some (Val.vInt 5) ∧
    bagLookup (distributeMergedValues (DCW.destinations (DCW.merge genderW ageGroupW))
        [Val.vInt 5, Val.vInt 6]) "age_group" = some (Val.vInt 6) ∧
    some (Val.vInt 5) ≠ some (Val.vInt 6) := by
  refine ⟨rfl, rfl, ?_⟩
  simp

/-- C2 (amended): when a SINGLE value is parsed for the merged argument,
that value is broadcast to every destination of the merged wrapper, so
all merged destinations hold equal values; with one value per merged
destination, each destination receives its own value in order. -/
theorem c2_single_value_broadcast (w1 w2 : DCW) (v : Val) :
    distributeMergedValues (DCW.destinations (DCW.merge w1 w2)) [v] =
      (DCW.destinations (DCW.merge w1 w2)).map (fun d => (d, v)) := by
  generalize DCW.destinations (DCW.merge w1 w2) = dests
  unfold distributeMergedValues
  match dests with
  | [] => rfl
  | [d] => rfl
  | d1 :: d2 :: rest => rfl

/-- C4: the `subgroups` call of the repository test suite
(`src/test/test_subgroups.py`, dataclass `Bob`):
`subgroups({"foo_thing": Foo, "bar_thing": Bar}, default=Bar(d=3))`.
Evaluating the `default not in subgroups` membership check hashes the
pre-built dataclass instance and raises `TypeError` (plain dataclasses
are unhashable), so declaring an instance default is a declaration-time
crash - the discriminator is never resolved to the matching key
`bar_thing`. -/
theorem c4_instance_default_raises :
    subgroupsFn [("foo_thing", "Foo"), ("bar_thing", "Bar")]
        (SgDefault.inst "Bar") none =
      .error SgErr.typeErrorUnhashableDefault := rfl

/-- A successful association-list lookup means the key is among the
mapped-out keys. -/
theorem lookup_some_contains_key {β : Type} (l : List (String × β)) (k : String)
    (c : β) (h : l.lookup k = some c) :
    (l.map (fun p => p.1)).contains k = true := by
  induction l with
  | nil => cases h
  | cons p rest ih =>
    rw [List.lookup] at h
    cases hkb : (k == p.1) with
    | true => simp [List.contains_cons, hkb]
    | false =>
      rw [hkb] at h
      have h2 := ih h
      simp only [List.map_cons, List.contains_cons, h2, Bool.or_true]

/-- The `subgroups` helper with neither a default key nor a default
factory stores `MISSING` as the subgroup default. -/
theorem subgroupsFn_no_default (alts : List (String × String)) :
    subgroupsFn alts SgDefault.missing none =
      .ok { choices := alts.map (fun p => p.1), fieldDefault := .missing,
            fieldFactory := none, subgroupDefault := .missing } := rfl

/-- C5: a subgroup field declared with no default key and no default
factory has a required discriminator: parsing empty input fails with a
missing-required-argument error, while supplying the discriminator with
any valid alternative key succeeds and yields the default-constructed
chosen alternative. -/
theorem c5_required_subgroup (env : ClassEnv) (alts : List (String × String))
    (k cls : String) (hk : alts.lookup k = some cls) :
    sessionParse env alts SgDefault.missing none [] =
      .error (.missingRequired "thing") ∧
    sessionParse env alts SgDefault.missing none [("--thing", k)] =
      .ok (Val.vObj "Bob" [("thing", mkDefaultInstance env cls)]) := by
  constructor
  · rfl
  · unfold sessionParse
    rw [subgroupsFn_no_default]
    have hcmd : ([("--thing", k)] : List (String × String)).lookup "--thing" = some k := rfl
    unfold resolveDiscriminator
    rw [hcmd]
    simp only [lookup_some_contains_key alts k cls hk]
    simp [hk]

/-- Field defaults of the alternatives of `test_required_subgroup`
(`src/test/test_subgroups.py`): `Foo(a=1, b=2)` and `Bar(c=1, d=2)`. -/
def fbEnv : ClassEnv :=
  [("Foo", [("a", Val.vInt 1), ("b", Val.vInt 2)]),
   ("Bar", [("c", Val.vInt 1), ("d", Val.vInt 2)])]

/-- C5 witness: with the alternatives of `test_required_subgroup`, empty
input is a missing-required-argument error and `--thing foo` yields the
default-constructed `Foo`. -/
theorem c5_required_subgroup_witness :
    sessionParse fbEnv [("foo", "Foo"), ("bar", "Bar")] SgDefault.missing none [] =
      .error (.missingRequired "thing") ∧
    sessionParse fbEnv [("foo", "Foo"), ("bar", "Bar")] SgDefault.missing none
        [("--thing", "foo")] =
      .ok (Val.vObj "Bob" [("thing", Val.vObj "Foo" [("a", Val.vInt 1), ("b", Val.vInt 2)])]) :=
  c5_required_subgroup fbEnv [("foo", "Foo"), ("bar", "Bar")] "foo" "Foo" rfl

/-- Folding an overwrite-only update over a non-empty list yields the
update of the last element. -/
theorem foldl_overwrite_getLast {α β : Type} (g : α → β) (d : β) :
    ∀ (l : List α) (h : l ≠ []), l.foldl (fun _ t => g t) d = g (l.getLast h)
  | [a], _ => rfl
  | a :: b :: t, _ => by
    rw [List.foldl_cons, List.getLast_cons (by simp)]
    exact foldl_overwrite_getLast g (g a) (b :: t) (by simp)

/-- C6: for a boolean field, when its assert/negate options appear
multiple times in the token list, the resolved value is that of the
last-supplied option in argument order; in particular, for input tokens
`--f --f false` in that order, the resolved value of field `f` is
`false`. -/
theorem c6_bool_last_supplied_wins :
    (∀ (d : Bool) (occs : List BoolTok) (h : occs ≠ []),
        resolveBoolOccs d occs = boolTokVal (occs.getLast h)) ∧
    resolveBoolField "f" false ["--f", "--f", "false"] = false := by
  constructor
  · intro d occs h
    exact foldl_overwrite_getLast boolTokVal d occs h
  · rfl

/-- C6 witness: the occurrence list scanned from `--f --f false` resolves
to the value of its last occurrence, which is `false`. -/
theorem c6_bool_last_supplied_wins_witness :
    resolveBoolOccs false (scanBoolTokens "f" ["--f", "--f", "false"]) =
      boolTokVal ((scanBoolTokens "f" ["--f", "--f", "false"]).getLast (by simp [scanBoolTokens, parseBoolLit])) ∧
    resolveBoolOccs false (scanBoolTokens "f" ["--f", "--f", "false"]) = false :=
  ⟨c6_bool_last_supplied_wins.1 false (scanBoolTokens "f" ["--f", "--f", "false"])
      (by simp [scanBoolTokens, parseBoolLit]), rfl⟩

/-- Membership through `insertDesc`. -/
theorem mem_insertDesc (x a : WrapperN) (l : List WrapperN) :
    a ∈ insertDesc x l ↔ a = x ∨ a ∈ l := by
  induction l with
  | nil => simp [insertDesc]
  | cons y ys ih =>
    unfold insertDesc
    by_cases h : x.nestingLevel < y.nestingLevel
    · rw [if_pos h]
      simp only [List.mem_cons, ih]
      tauto
    · rw [if_neg h]
      simp only [List.mem_cons]

/-- `insertDesc` preserves the descending-by-level invariant. -/
theorem pairwise_insertDesc (x : WrapperN) (l : List WrapperN)
    (hl : l.Pairwise (fun a b => b.nestingLevel ≤ a.nestingLevel)) :
    (insertDesc x l).Pairwise (fun a b => b.nestingLevel ≤ a.nestingLevel) := by
  induction l with
  | nil => simp [insertDesc]
  | cons y ys ih =>
    rw [List.pairwise_cons] at hl
    obtain ⟨hy, hys⟩ := hl
    unfold insertDesc
    by_cases h : x.nestingLevel < y.nestingLevel
    · rw [if_pos h, List.pairwise_cons]
      refine ⟨?_, ih hys⟩
      intro a ha
      rcases (mem_insertDesc x a ys).mp ha with rfl | ha
      · exact Nat.le_of_lt h
      · exact hy a ha
    · rw [if_neg h, List.pairwise_cons]
      have hyx : y.nestingLevel ≤ x.nestingLevel := Nat.le_of_not_lt h
      refine ⟨?_, List.pairwise_cons.mpr ⟨hy, hys⟩⟩
      intro a ha
      rcases List.mem_cons.mp ha with rfl | ha
      · exact hyx
      · exact Nat.le_trans (hy a ha) hyx

/-- The input survives an `insertDesc` as a sublist. -/
theorem sublist_insertDesc (x : WrapperN) (l : List WrapperN) :
    l.Sublist (insertDesc x l) := by
  induction l with
  | nil => simp [insertDesc]
  | cons y ys ih =>
    unfold insertDesc
    by_cases h : x.nestingLevel < y.nestingLevel
    · rw [if_pos h]
      exact List.Sublist.cons₂ y ih
    · rw [if_neg h]
      exact List.Sublist.cons x (List.Sublist.refl (y :: ys))

/-- The inserted node lands before every present node of
smaller-or-equal level. -/
theorem insertDesc_before (x b : WrapperN) (l : List WrapperN)
    (hb : b ∈ l) (hle : b.nestingLevel ≤ x.nestingLevel) :
    [x, b].Sublist (insertDesc x l) := by
  induction l with
  | nil => cases hb
  | cons y ys ih =>
    unfold insertDesc
    by_cases h : x.nestingLevel < y.nestingLevel
    · rw [if_pos h]
      have hby : b ≠ y := by
        intro e
        rw [e] at hle
        omega
      have hbys : b ∈ ys := by
        rcases List.mem_cons.mp hb with e | m
        · exact absurd e hby
        · exact m
      exact List.Sublist.cons y (ih hbys)
    · rw [if_neg h]
      exact List.Sublist.cons₂ x (List.singleton_sublist.mpr hb)

/-- Membership through the whole sort. -/
theorem mem_sortedByLevelDesc (a : WrapperN) (l : List WrapperN) :
    a ∈ sortedByLevelDesc l ↔ a ∈ l := by
  induction l with
  | nil => simp [sortedByLevelDesc]
  | cons y ys ih =>
    simp only [sortedByLevelDesc, mem_insertDesc, ih, List.mem_cons]

/-- The sorted list is descending by nesting level. -/
theorem pairwise_sortedByLevelDesc (l : List WrapperN) :
    (sortedByLevelDesc l).Pairwise (fun a b => b.nestingLevel ≤ a.nestingLevel) := by
  induction l with
  | nil => simp [sortedByLevelDesc]
  | cons y ys ih => exact pairwise_insertDesc y (sortedByLevelDesc ys) ih

/-- Stability: two nodes of equal level keep their relative (registration)
order through the sort. -/
theorem stable_sortedByLevelDesc (a b : WrapperN) (l : List WrapperN)
    (heq : a.nestingLevel = b.nestingLevel) (h : [a, b].Sublist l) :
    [a, b].Sublist (sortedByLevelDesc l) := by
  induction l with
  | nil => cases h
  | cons y ys ih =>
    cases h with
    | cons _ h2 =>
      exact (ih h2).trans (sublist_insertDesc y (sortedByLevelDesc ys))
    | cons₂ _ h2 =>
      have hbmem : b ∈ sortedByLevelDesc ys :=
        (mem_sortedByLevelDesc b ys).mpr (List.singleton_sublist.mp h2)
      exact insertDesc_before a b (sortedByLevelDesc ys) hbmem (Nat.le_of_eq heq.symm)

/-- C7: the postprocessor instantiates nodes in decreasing nesting-level
order (deepest first), and among nodes of equal nesting level the one
registered earlier is processed first (Python `sorted` is stable). -/
theorem c7_postprocessing_order (ws : List WrapperN) :
    (sortedByLevelDesc ws).Pairwise (fun a b => b.nestingLevel ≤ a.nestingLevel) ∧
    (∀ a b, a.nestingLevel = b.nestingLevel → [a, b].Sublist ws →
      [a, b].Sublist (sortedByLevelDesc ws)) :=
  ⟨pairwise_sortedByLevelDesc ws,
   fun a b heq h => stable_sortedByLevelDesc a b ws heq h⟩

/-- The three nodes of the C7 witness: two level-1 nodes registered
around a level-2 node. -/
def w7a : WrapperN := ⟨1, "foo"⟩

def w7b : WrapperN := ⟨2, "bar.baz"⟩

def w7c : WrapperN := ⟨1, "qux"⟩

/-- C7 witness: the two level-1 nodes keep their registration order in
the sorted output. -/
theorem c7_postprocessing_order_witness :
    [w7a, w7c].Sublist (sortedByLevelDesc [w7a, w7b, w7c]) :=
  (c7_postprocessing_order [w7a, w7b, w7c]).2 w7a w7c rfl
    (List.Sublist.cons₂ w7a (List.Sublist.cons w7b (List.Sublist.refl [w7c])))

/-- One drain step keeps the bag inside the remaining destinations. -/
theorem drainStep_subset (bag : Finset String) (e : ProcEntry)
    (rest : List ProcEntry) (hsub : bag ⊆ destsOf (e :: rest))
    (hpk : ∀ pk, e.parentKey = some pk → pk ∈ rest.map (fun x => x.dest)) :
    drainStep bag e ⊆ destsOf rest := by
  intro x hx
  unfold drainStep at hx
  have hxne : x ≠ e.dest := (Finset.mem_erase.mp hx).1
  have hxin := (Finset.mem_erase.mp hx).2
  have hbag : ∀ y, y ∈ bag → y ≠ e.dest → y ∈ destsOf rest := by
    intro y hy hyne
    have := hsub hy
    unfold destsOf at this ⊢
    simp only [List.map_cons, List.mem_toFinset, List.mem_cons] at this
    rcases this with e1 | m
    · exact absurd e1 hyne
    · simpa [List.mem_toFinset] using m
  cases hpkc : e.parentKey with
  | none =>
    rw [hpkc] at hxin
    exact hbag x hxin hxne
  | some pk =>
    rw [hpkc] at hxin
    rcases Finset.mem_insert.mp hxin with rfl | hxbag
    · have := hpk x hpkc
      unfold destsOf
      simpa [List.mem_toFinset] using this
    · exact hbag x hxbag hxne

/-- C8: for a wellformed processing order (every parent key owned by a
later entry, as guaranteed by the descending nesting-level sort), a
constructor-argument bag whose keys all belong to the processed
destinations is fully drained: after the postprocessor handles every
destination the bag is empty. -/
theorem c8_bag_fully_drained (entries : List ProcEntry) :
    ∀ bag : Finset String, bag ⊆ destsOf entries →
      parentsLaterOk entries = true → drainBag entries bag = ∅ := by
  induction entries with
  | nil =>
    intro bag hsub _
    have : bag = ∅ := Finset.subset_empty.mp (by simpa [destsOf] using hsub)
    simpa [drainBag] using this
  | cons e rest ih =>
    intro bag hsub hpl
    unfold parentsLaterOk at hpl
    rw [Bool.and_eq_true] at hpl
    have hpk : ∀ pk, e.parentKey = some pk → pk ∈ rest.map (fun x => x.dest) := by
      intro pk hpkc
      rw [hpkc] at hpl
      simpa using hpl.1
    have hstep := drainStep_subset bag e rest hsub hpk
    have : drainBag (e :: rest) bag = drainBag rest (drainStep bag e) := rfl
    rw [this]
    exact ih (drainStep bag e) hstep hpl.2

/-- C8 witness: a two-destination session (child `cfg.opt` writing into
root `cfg`) drains its bag completely. -/
theorem c8_bag_fully_drained_witness :
    drainBag [⟨"cfg.opt", some "cfg"⟩, ⟨"cfg", none⟩]
      ({"cfg.opt", "cfg"} : Finset String) = ∅ :=
  c8_bag_fully_drained [⟨"cfg.opt", some "cfg"⟩, ⟨"cfg", none⟩]
    ({"cfg.opt", "cfg"} : Finset String) (by decide) (by decide)

/-- The initial self-referential state is exactly what the model of the
user registration produces on an empty parser. -/
theorem selfInit_from_registration :
    addArgsModel selfEnv
      { dataclasses := [], unresolved := [], optionStrings := [] }
      "Config" "config" = .ok selfInit := rfl

/-- C1 counterexample: the fatal error of a self-referential subgroup
definition is NOT the round-bound fault.  The prototype loop raises the
very same conflicting-option-string configuration error whether its
budget is a single round or the full 100 rounds: in the first resolution
round, `add_arguments(Config, "config.x")` re-registers the option
string `--x` (derived from the bare field name) and argparse raises a
conflicting-option-string `ArgumentError` - the 100-round bound is never
reached, and the code has no round-bound error path at all. -/
theorem c1_selfref_error_not_round_bound :
    roundLoop selfEnv chooseA 1 selfInit =
      .error (.conflictingOption "--x") ∧
    roundLoop selfEnv chooseA 100 selfInit =
      .error (.conflictingOption "--x") := ⟨rfl, rfl⟩

/-- C1 (amended): the prototype round loop performs at most its fuel (100
in `parse_known_args`) rounds and exits immediately once nothing is
unresolved; a subgroup definition that refers to itself without bound
causes a fatal configuration error rather than non-termination of
`parse_known_args` - but the error is argparse's
conflicting-option-string `ArgumentError`, raised in the first
resolution round when the nested subgroup field re-registers its option
string, not a round-bound fault: the error is the same for every round
budget of at least one. -/
theorem c1_selfref_fatal_amended :
    (∀ (env : SchemaEnv) (choose : String → String) (n : Nat) (st : RState),
        st.unresolved = [] → roundLoop env choose n st = .ok st) ∧
    (∀ n : Nat, 1 ≤ n →
      roundLoop selfEnv chooseA n selfInit =
        .error (.conflictingOption "--x")) := by
  constructor
  · intro env choose n st hst
    match n with
    | 0 => rfl
    | m + 1 =>
      rw [roundLoop]
      have h : st.unresolved.isEmpty = true := by rw [hst]; rfl
      rw [h]
      simp
  · intro n hn
    match n with
    | 0 => omega
    | m + 1 => rfl

/-- C1 witness: the fatal conflicting-option-string error at the full
100-round budget, and a nothing-unresolved state returned unchanged. -/
theorem c1_selfref_fatal_amended_witness :
    roundLoop selfEnv chooseA 100 selfInit =
      .error (.conflictingOption "--x") ∧
    roundLoop selfEnv chooseA 7
      ({ dataclasses := [("config", "Config")], unresolved := [],
         optionStrings := ["--x"] } : RState) =
      .ok { dataclasses := [("config", "Config")], unresolved := [],
            optionStrings := ["--x"] } :=
  ⟨c1_selfref_fatal_amended.2 100 (by omega),
   c1_selfref_fatal_amended.1 selfEnv chooseA 7
     { dataclasses := [("config", "Config")], unresolved := [],
       optionStrings := ["--x"] } rfl⟩
